import Mathlib

/-!
# Shallow embedding of the text_to_sql pipeline

This file embeds the two front-end scripts of the text_to_sql repository,
`gradio_app.py` and `app.py`, as pure Lean functions.  The two external
collaborators — the SQL database and the language model — are modelled as
oracles: each call either returns a value or raises an exception, rendered as
`Except String α` where the error carries the Python `str(e)` message.
Every function additionally records the external calls it performs as a list
of `Event`s, so that claims about which calls happen (short-circuiting,
no-retry, no-model-call) can be stated and proved.
-/

/-- A chat message as produced by `ChatPromptTemplate.format_messages`:
a role tag and the fully substituted content. -/
structure Message where
  role : String
  content : String
deriving DecidableEq, Repr

/-- The database collaborator (`SQLDatabase`): `table_info` models
`db.get_table_info()` and `run` models `db.run(query)`; each either returns a
string or raises an exception with the given message. -/
structure Db where
  table_info : Except String String
  run : String → Except String String

/-- The language-model collaborator (`ChatGoogleGenerativeAI`): `invoke` on a
formatted message list returns the response content (`response.content`) or
raises with the given message. -/
structure Llm where
  invoke : List Message → Except String String

/-- External calls observable during one run of the pipeline, tagged by the
call site in the source: the schema fetch, the SQL-generation model call, the
answer-generation model call, and the database execution (with the executed
query string). -/
inductive Event where
  | schemaCall : Event
  | genLlmCall : List Message → Event
  | ansLlmCall : List Message → Event
  | dbRunCall : String → Event
deriving DecidableEq, Repr

/-- Python truthiness of an optional string: `None` and `""` are falsy,
any other string is truthy.  Models `if sql_error:` / `if error:` /
`if raw_results:` in the source. -/
def py_truthy : Option String → Bool
  | none => false
  | some s => !(s == "")

/-- Python `str()` applied to an optional string: `None` renders as `"None"`,
a string renders as itself.  Models `str(raw_results)` and the `{response}`
placeholder substitution when the value may be `None`. -/
def py_str : Option String → String
  | none => "None"
  | some s => s

/-- Python `str.strip()` on the underlying character list: drop whitespace
from the front, then from the back. -/
def stripChars (l : List Char) : List Char :=
  ((l.dropWhile Char.isWhitespace).reverse.dropWhile Char.isWhitespace).reverse

/-- Model of Python `str.strip()`. -/
def py_strip (s : String) : String :=
  String.mk (stripChars s.data)

theorem stripChars_getLast_not_white (l : List Char) (c : Char)
    (h : (stripChars l).getLast? = some c) : c.isWhitespace = false := by
  unfold stripChars at h
  rw [List.getLast?_reverse] at h
  have hd := List.head?_dropWhile_not Char.isWhitespace
    (l.dropWhile Char.isWhitespace).reverse
  rw [h] at hd
  exact hd

theorem stripChars_head_not_white (l : List Char) (c : Char)
    (h : (stripChars l).head? = some c) : c.isWhitespace = false := by
  unfold stripChars at h
  rw [List.head?_reverse] at h
  obtain ⟨t, ht⟩ := List.dropWhile_suffix
    (l := (l.dropWhile Char.isWhitespace).reverse) Char.isWhitespace
  have h2 : ((l.dropWhile Char.isWhitespace).reverse).getLast? = some c := by
    rw [← ht, List.getLast?_append, h]
    rfl
  rw [List.getLast?_reverse] at h2
  have hd := List.head?_dropWhile_not Char.isWhitespace l
  rw [h2] at hd
  exact hd

/-- The stripped string never starts with a whitespace character. -/
theorem py_strip_head_not_white (s : String) (c : Char)
    (h : (py_strip s).data.head? = some c) : c.isWhitespace = false :=
  stripChars_head_not_white s.data c h

/-- The stripped string never ends with a whitespace character. -/
theorem py_strip_getLast_not_white (s : String) (c : Char)
    (h : (py_strip s).data.getLast? = some c) : c.isWhitespace = false :=
  stripChars_getLast_not_white s.data c h

/-! ## Prompt templates

The SQL-generation template is identical in the two files; the
answer-generation template differs only in the indentation of the
continuation lines (8 spaces in `gradio_app.py`, 4 in `app.py`). -/

/-- System message of the SQL-generation prompt (both files). -/
def sqlSystemMessage : String :=
  "Given an input question, convert it to a SQL query. No pre-amble. Please do not return anything else apart from the SQL query, no prefix or suffix quotes, no sql keyword, nothing please"

/-- Human message of the SQL-generation prompt with `schema` and `question`
substituted for the placeholders (both files). -/
def sqlHumanMessage (schema question : String) : String :=
  "Based on the table schema below, write a SQL query that would answer the user's question:\n    " ++ schema ++ "\n\n    Question: " ++ question ++ "\n    SQL Query:"

/-- The formatted SQL-generation prompt. -/
def sqlPromptMessages (schema question : String) : List Message :=
  [⟨"system", sqlSystemMessage⟩, ⟨"human", sqlHumanMessage schema question⟩]

/-- System message of the answer-generation prompt (both files). -/
def answerSystemMessage : String :=
  "Given an input question and SQL response, convert it to a natural language answer. No pre-amble."

namespace GradioApp

/-! ## gradio_app.py

The module-level `db` and `llm` globals become explicit parameters. -/

/-- Human message of the answer-generation prompt with all four placeholders
substituted (8-space continuation indentation as in `gradio_app.py`). -/
def answerHumanMessage (schema question query response : String) : String :=
  "Based on the table schema below, question, sql query, and sql response, write a natural language response:\n        " ++ schema ++ "\n\n        Question: " ++ question ++ "\n        SQL Query: " ++ query ++ "\n        SQL Response: " ++ response

/-- The formatted answer-generation prompt of `gradio_app.py`. -/
def answerPromptMessages (schema question query response : String) : List Message :=
  [⟨"system", answerSystemMessage⟩,
   ⟨"human", answerHumanMessage schema question query response⟩]

/-- `get_schema()` — returns `db.get_table_info()`; may raise. -/
def get_schemaT (db : Db) : Except String String × List Event :=
  (db.table_info, [Event.schemaCall])

/-- `get_schema()` without the trace. -/
def get_schema (db : Db) : Except String String :=
  (get_schemaT db).1

/-- `run_query(query)` — runs the query, catching any exception:
returns `(result, None)` on success and `(None, str(e))` on failure. -/
def run_queryT (db : Db) (query : String) :
    (Option String × Option String) × List Event :=
  match db.run query with
  | .ok result => ((some result, none), [Event.dbRunCall query])
  | .error e => ((none, some e), [Event.dbRunCall query])

/-- `run_query(query)` without the trace. -/
def run_query (db : Db) (query : String) : Option String × Option String :=
  (run_queryT db query).1

/-- The `generate_sql` closure returned by `write_sql_query()`: fetch the
schema, format the SQL prompt, invoke the model, strip the response. -/
def generate_sqlT (db : Db) (llm : Llm) (question : String) :
    Except String String × List Event :=
  match get_schemaT db with
  | (.error e, evs) => (.error e, evs)
  | (.ok schema, evs) =>
    let msgs := sqlPromptMessages schema question
    match llm.invoke msgs with
    | .error e => (.error e, evs ++ [Event.genLlmCall msgs])
    | .ok response => (.ok (py_strip response), evs ++ [Event.genLlmCall msgs])

/-- `generate_sql` without the trace. -/
def generate_sql (db : Db) (llm : Llm) (question : String) :
    Except String String :=
  (generate_sqlT db llm question).1

/-- `process_query(question)` — the composed entry point of `gradio_app.py`.
Returns the triple (answer, sql, raw) displayed by the UI.  The whole pipeline
body sits inside `try/except`, so any raised exception `e` becomes
`("Error: " ++ e, "", "")`; an execution error with a truthy message becomes
`("SQL Error: " ++ e, sql, "")`. -/
def process_queryT (db : Db) (llm : Llm) (question : String) :
    (String × String × String) × List Event :=
  if py_strip question == "" then
    (("Please enter a question.", "", ""), [])
  else
    match generate_sqlT db llm question with
    | (.error e, evs) => (("Error: " ++ e, "", ""), evs)
    | (.ok generated_sql, evs) =>
      match run_queryT db generated_sql with
      | ((raw_results, sql_error), evs2) =>
        if py_truthy sql_error then
          (("SQL Error: " ++ sql_error.getD "", generated_sql, ""), evs ++ evs2)
        else
          match get_schemaT db with
          | (.error e, evs3) => (("Error: " ++ e, "", ""), evs ++ evs2 ++ evs3)
          | (.ok schema, evs3) =>
            let msgs := answerPromptMessages schema question generated_sql
              (py_str raw_results)
            match llm.invoke msgs with
            | .error e =>
              (("Error: " ++ e, "", ""), evs ++ evs2 ++ evs3 ++ [Event.ansLlmCall msgs])
            | .ok natural_response =>
              ((natural_response, generated_sql, py_str raw_results),
               evs ++ evs2 ++ evs3 ++ [Event.ansLlmCall msgs])

/-- `process_query` without the trace: the displayed triple. -/
def process_query (db : Db) (llm : Llm) (question : String) :
    String × String × String :=
  (process_queryT db llm question).1

/-- The external calls made by one run of `process_query`. -/
def process_query_events (db : Db) (llm : Llm) (question : String) :
    List Event :=
  (process_queryT db llm question).2

end GradioApp

namespace App

/-! ## app.py

`init_database()` and `get_llm()` return `None` on a setup exception, so the
handles flowing through `main` are `Option Db` / `Option Llm`; the pipeline
functions take the possibly-absent database handle exactly as the source
passes `db` around. -/

/-- Human message of the answer-generation prompt with all four placeholders
substituted (4-space continuation indentation as in `app.py`). -/
def answerHumanMessage (schema question query response : String) : String :=
  "Based on the table schema below, question, sql query, and sql response, write a natural language response:\n    " ++ schema ++ "\n\n    Question: " ++ question ++ "\n    SQL Query: " ++ query ++ "\n    SQL Response: " ++ response

/-- The formatted answer-generation prompt of `app.py`. -/
def answerPromptMessages (schema question query response : String) : List Message :=
  [⟨"system", answerSystemMessage⟩,
   ⟨"human", answerHumanMessage schema question query response⟩]

/-- `get_schema(db)` — `if db: return db.get_table_info()` (may raise);
`return "Database not connected"` when the handle is absent. -/
def get_schemaT (db : Option Db) : Except String String × List Event :=
  match db with
  | some d => (d.table_info, [Event.schemaCall])
  | none => (.ok "Database not connected", [])

/-- `get_schema(db)` without the trace. -/
def get_schema (db : Option Db) : Except String String :=
  (get_schemaT db).1

/-- `run_query(db, query)` — with a live handle, runs the query catching any
exception into `(None, str(e))`; with an absent handle, returns
`(None, "Database not connected")` without touching the database. -/
def run_queryT (db : Option Db) (query : String) :
    (Option String × Option String) × List Event :=
  match db with
  | some d =>
    match d.run query with
    | .ok result => ((some result, none), [Event.dbRunCall query])
    | .error e => ((none, some e), [Event.dbRunCall query])
  | none => ((none, some "Database not connected"), [])

/-- `run_query(db, query)` without the trace. -/
def run_query (db : Option Db) (query : String) : Option String × Option String :=
  (run_queryT db query).1

/-- The `generate_sql` closure returned by `write_sql_query(llm, db)`. -/
def generate_sqlT (db : Option Db) (llm : Llm) (question : String) :
    Except String String × List Event :=
  match get_schemaT db with
  | (.error e, evs) => (.error e, evs)
  | (.ok schema, evs) =>
    let msgs := sqlPromptMessages schema question
    match llm.invoke msgs with
    | .error e => (.error e, evs ++ [Event.genLlmCall msgs])
    | .ok response => (.ok (py_strip response), evs ++ [Event.genLlmCall msgs])

/-- `generate_sql` without the trace. -/
def generate_sql (db : Option Db) (llm : Llm) (question : String) :
    Except String String :=
  (generate_sqlT db llm question).1

/-- `answer_user_query(query, llm, db)` — generates SQL, executes it, and on a
truthy execution error raises `Exception(f"SQL Error: {error}")`; otherwise
formats the answer prompt (fetching the schema again) and invokes the model,
returning the response content.  Raised exceptions are the `.error` case. -/
def answer_user_queryT (query : String) (llm : Llm) (db : Option Db) :
    Except String String × List Event :=
  match generate_sqlT db llm query with
  | (.error e, evs) => (.error e, evs)
  | (.ok sql_result, evs) =>
    match run_queryT db sql_result with
    | ((db_result, error), evs2) =>
      if py_truthy error then
        (.error ("SQL Error: " ++ error.getD ""), evs ++ evs2)
      else
        match get_schemaT db with
        | (.error e, evs3) => (.error e, evs ++ evs2 ++ evs3)
        | (.ok schema, evs3) =>
          let msgs := answerPromptMessages schema query sql_result (py_str db_result)
          match llm.invoke msgs with
          | .error e =>
            (.error e, evs ++ evs2 ++ evs3 ++ [Event.ansLlmCall msgs])
          | .ok response =>
            (.ok response, evs ++ evs2 ++ evs3 ++ [Event.ansLlmCall msgs])

/-- `answer_user_query` without the trace. -/
def answer_user_query (query : String) (llm : Llm) (db : Option Db) :
    Except String String :=
  (answer_user_queryT query llm db).1

/-- Outcome of one `main()` pass in `app.py` for a given question. -/
inductive MainOutcome where
  | initError : MainOutcome
  | idle : MainOutcome
  | success : String → String → String → MainOutcome
  | runError : String → MainOutcome
deriving DecidableEq, Repr

/-- The execute flow of `main()`: bail out with an error when `db` or `llm`
failed to initialize; do nothing when the input is blank (the button is
disabled and the handler re-checks `query_input.strip()`); otherwise run
`answer_user_query`, then regenerate the SQL for display, then re-execute it
for the raw-results panel; any exception in that block is caught and shown as
`Error: ...`. -/
def mainT (db : Option Db) (llm : Option Llm) (query_input : String) :
    MainOutcome × List Event :=
  match db, llm with
  | some d, some l =>
    if py_strip query_input == "" then (.idle, [])
    else
      match answer_user_queryT query_input l (some d) with
      | (.error e, evs) => (.runError ("Error: " ++ e), evs)
      | (.ok response, evs) =>
        match generate_sqlT (some d) l query_input with
        | (.error e, evs2) => (.runError ("Error: " ++ e), evs ++ evs2)
        | (.ok generated_sql, evs2) =>
          match run_queryT (some d) generated_sql with
          | ((raw_results, _sql_error), evs3) =>
            let rawDisplay :=
              if py_truthy raw_results then py_str raw_results
              else "No results returned"
            (.success response generated_sql rawDisplay, evs ++ evs2 ++ evs3)
  | _, _ => (.initError, [])

/-- `main` outcome without the trace. -/
def main_outcome (db : Option Db) (llm : Option Llm) (query_input : String) :
    MainOutcome :=
  (mainT db llm query_input).1

/-- The external calls made by one `main()` pass. -/
def main_events (db : Option Db) (llm : Option Llm) (query_input : String) :
    List Event :=
  (mainT db llm query_input).2

end App

/-! ## Event classifiers and stub collaborators -/

/-- Does the event record the SQL-generation model call? -/
def is_gen_call : Event → Bool
  | .genLlmCall _ => true
  | _ => false

/-- Does the event record the answer-generation model call? -/
def is_ans_call : Event → Bool
  | .ansLlmCall _ => true
  | _ => false

/-- Does the event record a database execution? -/
def is_db_run : Event → Bool
  | .dbRunCall _ => true
  | _ => false

/-- A database stub whose schema fetch and every query succeed. -/
def dbOk : Db := ⟨.ok "S", fun _ => .ok "R"⟩

/-- A database stub where every query raises "no such table". -/
def dbRaise : Db := ⟨.ok "S", fun _ => .error "no such table"⟩

/-- A database stub where every query raises an exception whose rendered
message is the empty string (e.g. `raise Exception()`). -/
def dbRaiseEmpty : Db := ⟨.ok "S", fun _ => .error ""⟩

/-- A model stub that always answers "SELECT 1;". -/
def llmConst : Llm := ⟨fun _ => .ok "SELECT 1;"⟩

/-- A model stub that always raises "boom". -/
def llmRaise : Llm := ⟨fun _ => .error "boom"⟩

/-- A model stub whose answer carries leading and trailing whitespace. -/
def llmWhite : Llm := ⟨fun _ => .ok "  SELECT 1;\n  "⟩

/-- Exhaustive case analysis of `process_query`: empty-question prompt,
caught-exception shape, execution-error shape, or answer shape; each error
shape is tied to the collaborator call that produced it. -/
theorem process_query_cases (db : Db) (llm : Llm) (question : String) :
    (py_strip question = "" ∧
      GradioApp.process_query db llm question = ("Please enter a question.", "", "")) ∨
    (∃ e, GradioApp.process_query db llm question = ("Error: " ++ e, "", "") ∧
      (db.table_info = .error e ∨ ∃ msgs, llm.invoke msgs = .error e)) ∨
    (∃ e sql, e ≠ "" ∧
      GradioApp.process_query db llm question = ("SQL Error: " ++ e, sql, "") ∧
      db.run sql = .error e) ∨
    (∃ ans sql raw, GradioApp.process_query db llm question = (ans, sql, py_str raw) ∧
      ∃ msgs, llm.invoke msgs = .ok ans) := by
  by_cases hq : py_strip question = ""
  · left
    exact ⟨hq, by simp [GradioApp.process_query, GradioApp.process_queryT, hq]⟩
  · have hq' : (py_strip question == "") = false := by simpa using hq
    cases hti : db.table_info with
    | error e =>
      right; left
      refine ⟨e, ?_, Or.inl rfl⟩
      simp [GradioApp.process_query, GradioApp.process_queryT,
        GradioApp.generate_sqlT, GradioApp.get_schemaT, hq', hti]
    | ok schema =>
      cases hllm : llm.invoke (sqlPromptMessages schema question) with
      | error e =>
        right; left
        refine ⟨e, ?_, Or.inr ⟨_, hllm⟩⟩
        simp [GradioApp.process_query, GradioApp.process_queryT,
          GradioApp.generate_sqlT, GradioApp.get_schemaT, hq', hti, hllm]
      | ok resp =>
        cases hrun : db.run (py_strip resp) with
        | error e =>
          by_cases he : e = ""
          · subst he
            cases hans : llm.invoke (GradioApp.answerPromptMessages schema question
                (py_strip resp) (py_str none)) with
            | error e2 =>
              right; left
              refine ⟨e2, ?_, Or.inr ⟨_, hans⟩⟩
              simp [GradioApp.process_query, GradioApp.process_queryT,
                GradioApp.generate_sqlT, GradioApp.get_schemaT,
                GradioApp.run_queryT, py_truthy, hq', hti, hllm, hrun, hans]
            | ok ans =>
              right; right; right
              refine ⟨ans, py_strip resp, none, ?_, ⟨_, hans⟩⟩
              simp [GradioApp.process_query, GradioApp.process_queryT,
                GradioApp.generate_sqlT, GradioApp.get_schemaT,
                GradioApp.run_queryT, py_truthy, hq', hti, hllm, hrun, hans]
          · right; right; left
            refine ⟨e, py_strip resp, he, ?_, hrun⟩
            have he' : (e == "") = false := by simpa using he
            simp [GradioApp.process_query, GradioApp.process_queryT,
              GradioApp.generate_sqlT, GradioApp.get_schemaT,
              GradioApp.run_queryT, py_truthy, hq', hti, hllm, hrun, he']
        | ok result =>
          cases hans : llm.invoke (GradioApp.answerPromptMessages schema question
              (py_strip resp) (py_str (some result))) with
          | error e2 =>
            right; left
            refine ⟨e2, ?_, Or.inr ⟨_, hans⟩⟩
            simp [GradioApp.process_query, GradioApp.process_queryT,
              GradioApp.generate_sqlT, GradioApp.get_schemaT,
              GradioApp.run_queryT, py_truthy, hq', hti, hllm, hrun, hans]
          | ok ans =>
            right; right; right
            refine ⟨ans, py_strip resp, some result, ?_, ⟨_, hans⟩⟩
            simp [GradioApp.process_query, GradioApp.process_queryT,
              GradioApp.generate_sqlT, GradioApp.get_schemaT,
              GradioApp.run_queryT, py_truthy, hq', hti, hllm, hrun, hans]

/-! ## Claims -/

/-- The two output shapes asserted by claim C1: an answer with populated sql
and populated raw_result, or an error description with populated sql and empty
raw_result — either way the sql component is non-empty. -/
def claimedShapeC1 (out : String × String × String) : Prop :=
  (out.2.1 ≠ "" ∧ out.2.2 ≠ "") ∨ (out.2.1 ≠ "" ∧ out.2.2 = "")

/-- C1 counterexample: for the non-empty question "hi", when the
SQL-generation model call raises ("boom"), the `except` clause of
`process_query` returns ("Error: boom", "", "") — an error description whose
sql component is EMPTY, matching neither of the two shapes the claim allows. -/
theorem C1_counterexample :
    GradioApp.process_query dbOk llmRaise "hi" = ("Error: boom", "", "") ∧
    ¬ claimedShapeC1 (GradioApp.process_query dbOk llmRaise "hi") := by
  constructor
  · rfl
  · intro hc
    have h : GradioApp.process_query dbOk llmRaise "hi" = ("Error: boom", "", "") := rfl
    rw [h] at hc
    rcases hc with ⟨h1, _⟩ | ⟨h1, _⟩ <;> exact h1 rfl

/-- C1 (amended): for every non-empty question, each composed entry point
returns exactly one of the shapes its code can produce.  `process_query`
returns one of THREE triples: a caught-exception description `"Error: " ++ e`
with EMPTY sql and empty raw_result; an execution-error description
`"SQL Error: " ++ e` (e non-empty) with the generated sql and empty
raw_result; or a model answer with the generated sql and the string-rendered
raw result.  The `app.py` execute flow ends in one of TWO outcomes: an error
display `"Error: " ++ e` carrying NO sql and NO raw_result at all, or a
success display carrying the answer, the re-generated sql, and a NON-empty
raw panel (the raw result, or the placeholder "No results returned"). -/
theorem C1_amended (question : String) (hq : py_strip question ≠ "") :
    (∀ (db : Db) (llm : Llm),
      (∃ e, GradioApp.process_query db llm question = ("Error: " ++ e, "", "")) ∨
      (∃ e sql, e ≠ "" ∧
        GradioApp.process_query db llm question = ("SQL Error: " ++ e, sql, "")) ∨
      (∃ ans sql raw,
        GradioApp.process_query db llm question = (ans, sql, py_str raw) ∧
        ∃ msgs, llm.invoke msgs = .ok ans)) ∧
    (∀ (d : Db) (l : Llm),
      (∃ e, App.main_outcome (some d) (some l) question =
        .runError ("Error: " ++ e)) ∨
      (∃ ans sql rawDisplay, rawDisplay ≠ "" ∧
        App.main_outcome (some d) (some l) question =
          .success ans sql rawDisplay)) := by
  constructor
  · intro db llm
    rcases process_query_cases db llm question with
      ⟨hq0, _⟩ | ⟨e, h, _⟩ | ⟨e, sql, he, h, _⟩ | hsucc
    · exact absurd hq0 hq
    · exact Or.inl ⟨e, h⟩
    · exact Or.inr (Or.inl ⟨e, sql, he, h⟩)
    · exact Or.inr (Or.inr hsucc)
  · intro d l
    have hq' : (py_strip question == "") = false := by simpa using hq
    cases hti : d.table_info with
    | error e =>
      exact Or.inl ⟨e, by simp [App.main_outcome, App.mainT, App.answer_user_queryT,
        App.generate_sqlT, App.get_schemaT, hq', hti]⟩
    | ok schema =>
      cases hllm : l.invoke (sqlPromptMessages schema question) with
      | error e =>
        exact Or.inl ⟨e, by simp [App.main_outcome, App.mainT, App.answer_user_queryT,
          App.generate_sqlT, App.get_schemaT, hq', hti, hllm]⟩
      | ok resp =>
        cases hrun : d.run (py_strip resp) with
        | error e =>
          by_cases he : e = ""
          · subst he
            cases hans : l.invoke (App.answerPromptMessages schema question
                (py_strip resp) (py_str none)) with
            | error e2 =>
              exact Or.inl ⟨e2, by simp [App.main_outcome, App.mainT,
                App.answer_user_queryT, App.generate_sqlT, App.get_schemaT,
                App.run_queryT, py_truthy, hq', hti, hllm, hrun, hans]⟩
            | ok ans =>
              refine Or.inr ⟨ans, py_strip resp, "No results returned", by decide, ?_⟩
              simp [App.main_outcome, App.mainT, App.answer_user_queryT,
                App.generate_sqlT, App.get_schemaT, App.run_queryT, py_truthy,
                hq', hti, hllm, hrun, hans]
          · have he' : (e == "") = false := by simpa using he
            exact Or.inl ⟨"SQL Error: " ++ e, by simp [App.main_outcome, App.mainT,
              App.answer_user_queryT, App.generate_sqlT, App.get_schemaT,
              App.run_queryT, py_truthy, hq', hti, hllm, hrun, he']⟩
        | ok result =>
          cases hans : l.invoke (App.answerPromptMessages schema question
              (py_strip resp) (py_str (some result))) with
          | error e2 =>
            exact Or.inl ⟨e2, by simp [App.main_outcome, App.mainT,
              App.answer_user_queryT, App.generate_sqlT, App.get_schemaT,
              App.run_queryT, py_truthy, hq', hti, hllm, hrun, hans]⟩
          | ok ans =>
            by_cases hres : result = ""
            · subst hres
              simp only [py_str] at hans
              refine Or.inr ⟨ans, py_strip resp, "No results returned", by decide, ?_⟩
              simp [App.main_outcome, App.mainT, App.answer_user_queryT,
                App.generate_sqlT, App.get_schemaT, App.run_queryT, py_truthy,
                py_str, hq', hti, hllm, hrun, hans]
            · have hres2 : (result == "") = false := by simpa using hres
              simp only [py_str] at hans
              refine Or.inr ⟨ans, py_strip resp, result, hres, ?_⟩
              simp [App.main_outcome, App.mainT, App.answer_user_queryT,
                App.generate_sqlT, App.get_schemaT, App.run_queryT, py_truthy,
                py_str, hq', hti, hllm, hrun, hans, hres2]

/-- C1 witness: the amended shape analysis of both entry points instantiated
at the concrete non-empty question "hi". -/
theorem C1_amended_witness :
    (∀ (db : Db) (llm : Llm),
      (∃ e, GradioApp.process_query db llm "hi" = ("Error: " ++ e, "", "")) ∨
      (∃ e sql, e ≠ "" ∧
        GradioApp.process_query db llm "hi" = ("SQL Error: " ++ e, sql, "")) ∨
      (∃ ans sql raw,
        GradioApp.process_query db llm "hi" = (ans, sql, py_str raw) ∧
        ∃ msgs, llm.invoke msgs = .ok ans)) ∧
    (∀ (d : Db) (l : Llm),
      (∃ e, App.main_outcome (some d) (some l) "hi" =
        .runError ("Error: " ++ e)) ∨
      (∃ ans sql rawDisplay, rawDisplay ≠ "" ∧
        App.main_outcome (some d) (some l) "hi" =
          .success ans sql rawDisplay)) :=
  C1_amended "hi" (by decide)

/-- C2: in both files, `run_query` never lets a database exception escape: it
returns either (result, no error) on success or (no result, the rendered
error message) on failure — never both, for every handle, query and raised
exception. -/
theorem C2_run_query_tagged :
    (∀ (db : Db) (q : String),
      (∃ r, GradioApp.run_query db q = (some r, none)) ∨
      (∃ e, GradioApp.run_query db q = (none, some e))) ∧
    (∀ (db : Option Db) (q : String),
      (∃ r, App.run_query db q = (some r, none)) ∨
      (∃ e, App.run_query db q = (none, some e))) := by
  constructor
  · intro db q
    cases h : db.run q with
    | ok r =>
      exact Or.inl ⟨r, by simp [GradioApp.run_query, GradioApp.run_queryT, h]⟩
    | error e =>
      exact Or.inr ⟨e, by simp [GradioApp.run_query, GradioApp.run_queryT, h]⟩
  · intro db q
    match db with
    | none => exact Or.inr ⟨"Database not connected", rfl⟩
    | some d =>
      cases h : d.run q with
      | ok r =>
        exact Or.inl ⟨r, by simp [App.run_query, App.run_queryT, h]⟩
      | error e =>
        exact Or.inr ⟨e, by simp [App.run_query, App.run_queryT, h]⟩

/-- C7 counterexample: with an absent database handle, `get_schema` in
`app.py` does not fail at all — it returns the ordinary string
"Database not connected" (an `ok` value, not a raised `ConnectionError`),
and performs no database call. -/
theorem C7_counterexample :
    App.get_schemaT none = (Except.ok "Database not connected", []) := rfl

/-- C7 (amended): with an absent database handle `get_schema` returns the
sentinel string "Database not connected" without raising, and `main`
short-circuits to its init-error exit — making no model call and no database
call, hence never reaching SQL generation — whenever either handle is
unavailable. -/
theorem C7_amended :
    App.get_schemaT none = (Except.ok "Database not connected", []) ∧
    (∀ (llm : Option Llm) (q : String),
      App.mainT none llm q = (.initError, [])) ∧
    (∀ (db : Option Db) (q : String),
      App.mainT db none q = (.initError, [])) := by
  refine ⟨rfl, ?_, ?_⟩
  · intro llm q
    cases llm <;> rfl
  · intro db q
    cases db <;> rfl

/-- C10: `run_query` in `app.py` with an absent (falsy) database handle
returns (no result, exactly "Database not connected") for every query string,
recording no database access. -/
theorem C10_absent_handle_run_query (q : String) :
    App.run_queryT none q = ((none, some "Database not connected"), []) := rfl

/-- C3 counterexample: with a database whose exception renders to the EMPTY
string, `run_query` reports a failure (no result, error tag present), yet
`process_query` — which tests the error with Python truthiness, not tag
presence — does not short-circuit: it makes the answer-generation model call
(one `ansLlmCall` in the trace) and returns a "success" triple whose
raw_result is the rendering "None". -/
theorem C3_counterexample :
    GradioApp.run_query dbRaiseEmpty "SELECT 1;" = (none, some "") ∧
    (GradioApp.process_query_events dbRaiseEmpty llmConst "hi").countP is_ans_call = 1 ∧
    GradioApp.process_query dbRaiseEmpty llmConst "hi" =
      ("SELECT 1;", "SELECT 1;", "None") :=
  ⟨rfl, rfl, rfl⟩

/-- C3 (amended): when query execution reports a failure with a NON-EMPTY
error message, both pipelines short-circuit before the second model call: the
trace ends at the database call (no `ansLlmCall`), `process_query` returns
the prefixed "SQL Error: ..." as the visible answer, and `answer_user_query`
raises the prefixed message. -/
theorem C3_execution_failure_short_circuits (db : Db) (llm : Llm)
    (question schema resp e : String)
    (hq : py_strip question ≠ "")
    (hti : db.table_info = .ok schema)
    (hllm : llm.invoke (sqlPromptMessages schema question) = .ok resp)
    (hrun : db.run (py_strip resp) = .error e)
    (he : e ≠ "") :
    GradioApp.process_queryT db llm question =
      (("SQL Error: " ++ e, py_strip resp, ""),
       [Event.schemaCall, Event.genLlmCall (sqlPromptMessages schema question),
        Event.dbRunCall (py_strip resp)]) ∧
    (GradioApp.process_query_events db llm question).countP is_ans_call = 0 ∧
    App.answer_user_queryT question llm (some db) =
      (.error ("SQL Error: " ++ e),
       [Event.schemaCall, Event.genLlmCall (sqlPromptMessages schema question),
        Event.dbRunCall (py_strip resp)]) := by
  have hq' : (py_strip question == "") = false := by simpa using hq
  have he' : (e == "") = false := by simpa using he
  have h1 : GradioApp.process_queryT db llm question =
      (("SQL Error: " ++ e, py_strip resp, ""),
       [Event.schemaCall, Event.genLlmCall (sqlPromptMessages schema question),
        Event.dbRunCall (py_strip resp)]) := by
    simp [GradioApp.process_queryT, GradioApp.generate_sqlT, GradioApp.get_schemaT,
      GradioApp.run_queryT, py_truthy, hq', hti, hllm, hrun, he']
  refine ⟨h1, ?_, ?_⟩
  · simp [GradioApp.process_query_events, h1, is_ans_call]
  · simp [App.answer_user_queryT, App.generate_sqlT, App.get_schemaT,
      App.run_queryT, py_truthy, hti, hllm, hrun, he']

/-- C3 witness: the amended short-circuit instantiated at stub collaborators
where every query raises "no such table". -/
theorem C3_short_circuit_witness :
    GradioApp.process_queryT dbRaise llmConst "hi" =
      (("SQL Error: " ++ "no such table", py_strip "SELECT 1;", ""),
       [Event.schemaCall, Event.genLlmCall (sqlPromptMessages "S" "hi"),
        Event.dbRunCall (py_strip "SELECT 1;")]) ∧
    (GradioApp.process_query_events dbRaise llmConst "hi").countP is_ans_call = 0 ∧
    App.answer_user_queryT "hi" llmConst (some dbRaise) =
      (.error ("SQL Error: " ++ "no such table"),
       [Event.schemaCall, Event.genLlmCall (sqlPromptMessages "S" "hi"),
        Event.dbRunCall (py_strip "SELECT 1;")]) :=
  C3_execution_failure_short_circuits dbRaise llmConst "hi" "S" "SELECT 1;"
    "no such table" (by decide) rfl rfl rfl (by decide)

/-- C5: a question whose stripped form is empty short-circuits both
entry points with no external calls at all (the trace is empty — no model
call, no database call); `process_query` returns the prompt-for-input
message, and the execute flow of `app.py` does nothing. -/
theorem C5_empty_question (question : String) (hq : py_strip question = "") :
    (∀ (db : Db) (llm : Llm),
      GradioApp.process_queryT db llm question =
        (("Please enter a question.", "", ""), [])) ∧
    (∀ (db : Db) (llm : Llm),
      App.mainT (some db) (some llm) question = (.idle, [])) ∧
    (∀ (db : Option Db) (llm : Option Llm),
      App.main_events db llm question = []) := by
  refine ⟨?_, ?_, ?_⟩
  · intro db llm
    simp [GradioApp.process_queryT, hq]
  · intro db llm
    simp [App.mainT, hq]
  · intro db llm
    cases db with
    | none => rfl
    | some d =>
      cases llm with
      | none => rfl
      | some l => simp [App.main_events, App.mainT, hq]

/-- C5 witness: the short-circuit instantiated at a whitespace-only
question and stub collaborators. -/
theorem C5_empty_question_witness :
    (∀ (db : Db) (llm : Llm),
      GradioApp.process_queryT db llm "  " =
        (("Please enter a question.", "", ""), [])) ∧
    (∀ (db : Db) (llm : Llm),
      App.mainT (some db) (some llm) "  " = (.idle, [])) ∧
    (∀ (db : Option Db) (llm : Option Llm),
      App.main_events db llm "  " = []) :=
  C5_empty_question "  " (by decide)

/-- A string that is the stripped form of some model response starts and ends
with non-whitespace characters. -/
theorem stripped_no_edge_white (sql : String) (h : ∃ resp, sql = py_strip resp) :
    (∀ c, sql.data.head? = some c → c.isWhitespace = false) ∧
    (∀ c, sql.data.getLast? = some c → c.isWhitespace = false) := by
  obtain ⟨resp, rfl⟩ := h
  exact ⟨fun c hc => py_strip_head_not_white resp c hc,
    fun c hc => py_strip_getLast_not_white resp c hc⟩

/-- Every query string executed during a `process_query` run is the stripped
form of a model response. -/
theorem gradio_dbrun_stripped (db : Db) (llm : Llm) (question : String) :
    ∀ sql, Event.dbRunCall sql ∈ GradioApp.process_query_events db llm question →
      ∃ resp, sql = py_strip resp := by
  intro sql hmem
  by_cases hq : py_strip question = ""
  · exfalso
    simp [GradioApp.process_query_events, GradioApp.process_queryT, hq] at hmem
  · have hq2 : (py_strip question == "") = false := by simpa using hq
    cases hti : db.table_info with
    | error e =>
      exfalso
      simp [GradioApp.process_query_events, GradioApp.process_queryT,
        GradioApp.generate_sqlT, GradioApp.get_schemaT, hq2, hti] at hmem
    | ok schema =>
      cases hllm : llm.invoke (sqlPromptMessages schema question) with
      | error e =>
        exfalso
        simp [GradioApp.process_query_events, GradioApp.process_queryT,
          GradioApp.generate_sqlT, GradioApp.get_schemaT, hq2, hti, hllm] at hmem
      | ok resp =>
        refine ⟨resp, ?_⟩
        cases hrun : db.run (py_strip resp) with
        | error e =>
          by_cases he : e = ""
          · subst he
            cases hans : llm.invoke (GradioApp.answerPromptMessages schema
                question (py_strip resp) (py_str none)) with
            | error e2 =>
              simp [GradioApp.process_query_events, GradioApp.process_queryT,
                GradioApp.generate_sqlT, GradioApp.get_schemaT,
                GradioApp.run_queryT, py_truthy, hq2, hti, hllm, hrun, hans] at hmem
              exact hmem
            | ok ans =>
              simp [GradioApp.process_query_events, GradioApp.process_queryT,
                GradioApp.generate_sqlT, GradioApp.get_schemaT,
                GradioApp.run_queryT, py_truthy, hq2, hti, hllm, hrun, hans] at hmem
              exact hmem
          · have he2 : (e == "") = false := by simpa using he
            simp [GradioApp.process_query_events, GradioApp.process_queryT,
              GradioApp.generate_sqlT, GradioApp.get_schemaT,
              GradioApp.run_queryT, py_truthy, hq2, hti, hllm, hrun, he2] at hmem
            exact hmem
        | ok result =>
          cases hans : llm.invoke (GradioApp.answerPromptMessages schema
              question (py_strip resp) (py_str (some result))) with
          | error e2 =>
            simp [GradioApp.process_query_events, GradioApp.process_queryT,
              GradioApp.generate_sqlT, GradioApp.get_schemaT,
              GradioApp.run_queryT, py_truthy, hq2, hti, hllm, hrun, hans] at hmem
            exact hmem
          | ok ans =>
            simp [GradioApp.process_query_events, GradioApp.process_queryT,
              GradioApp.generate_sqlT, GradioApp.get_schemaT,
              GradioApp.run_queryT, py_truthy, hq2, hti, hllm, hrun, hans] at hmem
            exact hmem

/-- Every query string executed during an `answer_user_query` run is the
stripped form of a model response. -/
theorem app_answer_dbrun_stripped (db : Option Db) (llm : Llm) (question : String) :
    ∀ sql, Event.dbRunCall sql ∈ (App.answer_user_queryT question llm db).2 →
      ∃ resp, sql = py_strip resp := by
  intro sql hmem
  cases db with
  | none =>
    exfalso
    have htr : py_truthy (some "Database not connected") = true := rfl
    cases hllm : llm.invoke (sqlPromptMessages "Database not connected" question) with
    | error e =>
      simp [App.answer_user_queryT, App.generate_sqlT, App.get_schemaT, hllm] at hmem
    | ok resp =>
      simp [App.answer_user_queryT, App.generate_sqlT, App.get_schemaT,
        App.run_queryT, htr, hllm] at hmem
  | some d =>
    cases hti : d.table_info with
    | error e =>
      exfalso
      simp [App.answer_user_queryT, App.generate_sqlT, App.get_schemaT, hti] at hmem
    | ok schema =>
      cases hllm : llm.invoke (sqlPromptMessages schema question) with
      | error e =>
        exfalso
        simp [App.answer_user_queryT, App.generate_sqlT, App.get_schemaT,
          hti, hllm] at hmem
      | ok resp =>
        refine ⟨resp, ?_⟩
        cases hrun : d.run (py_strip resp) with
        | error e =>
          by_cases he : e = ""
          · subst he
            cases hans : llm.invoke (App.answerPromptMessages schema question
                (py_strip resp) (py_str none)) with
            | error e2 =>
              simp [App.answer_user_queryT, App.generate_sqlT, App.get_schemaT,
                App.run_queryT, py_truthy, hti, hllm, hrun, hans] at hmem
              exact hmem
            | ok ans =>
              simp [App.answer_user_queryT, App.generate_sqlT, App.get_schemaT,
                App.run_queryT, py_truthy, hti, hllm, hrun, hans] at hmem
              exact hmem
          · have he2 : (e == "") = false := by simpa using he
            simp [App.answer_user_queryT, App.generate_sqlT, App.get_schemaT,
              App.run_queryT, py_truthy, hti, hllm, hrun, he2] at hmem
            exact hmem
        | ok result =>
          cases hans : llm.invoke (App.answerPromptMessages schema question
              (py_strip resp) (py_str (some result))) with
          | error e2 =>
            simp [App.answer_user_queryT, App.generate_sqlT, App.get_schemaT,
              App.run_queryT, py_truthy, hti, hllm, hrun, hans] at hmem
            exact hmem
          | ok ans =>
            simp [App.answer_user_queryT, App.generate_sqlT, App.get_schemaT,
              App.run_queryT, py_truthy, hti, hllm, hrun, hans] at hmem
            exact hmem

/-- Every query string executed during one `app.py` execute pass is the
stripped form of a model response. -/
theorem app_main_dbrun_stripped (d : Db) (l : Llm) (question : String) :
    ∀ sql, Event.dbRunCall sql ∈ App.main_events (some d) (some l) question →
      ∃ resp, sql = py_strip resp := by
  intro sql hmem
  by_cases hq : py_strip question = ""
  · exfalso
    simp [App.main_events, App.mainT, hq] at hmem
  · have hq2 : (py_strip question == "") = false := by simpa using hq
    cases hti : d.table_info with
    | error e =>
      exfalso
      simp [App.main_events, App.mainT, App.answer_user_queryT,
        App.generate_sqlT, App.get_schemaT, hq2, hti] at hmem
    | ok schema =>
      cases hllm : l.invoke (sqlPromptMessages schema question) with
      | error e =>
        exfalso
        simp [App.main_events, App.mainT, App.answer_user_queryT,
          App.generate_sqlT, App.get_schemaT, hq2, hti, hllm] at hmem
      | ok resp =>
        refine ⟨resp, ?_⟩
        cases hrun : d.run (py_strip resp) with
        | error e =>
          by_cases he : e = ""
          · subst he
            cases hans : l.invoke (App.answerPromptMessages schema question
                (py_strip resp) (py_str none)) with
            | error e2 =>
              simp [App.main_events, App.mainT, App.answer_user_queryT,
                App.generate_sqlT, App.get_schemaT, App.run_queryT, py_truthy,
                hq2, hti, hllm, hrun, hans] at hmem
              exact hmem
            | ok ans =>
              simp [App.main_events, App.mainT, App.answer_user_queryT,
                App.generate_sqlT, App.get_schemaT, App.run_queryT, py_truthy,
                hq2, hti, hllm, hrun, hans] at hmem
              exact hmem
          · have he2 : (e == "") = false := by simpa using he
            simp [App.main_events, App.mainT, App.answer_user_queryT,
              App.generate_sqlT, App.get_schemaT, App.run_queryT, py_truthy,
              hq2, hti, hllm, hrun, he2] at hmem
            exact hmem
        | ok result =>
          cases hans : l.invoke (App.answerPromptMessages schema question
              (py_strip resp) (py_str (some result))) with
          | error e2 =>
            simp [App.main_events, App.mainT, App.answer_user_queryT,
              App.generate_sqlT, App.get_schemaT, App.run_queryT, py_truthy,
              hq2, hti, hllm, hrun, hans] at hmem
            exact hmem
          | ok ans =>
            simp [App.main_events, App.mainT, App.answer_user_queryT,
              App.generate_sqlT, App.get_schemaT, App.run_queryT, py_truthy,
              hq2, hti, hllm, hrun, hans] at hmem
            exact hmem

/-- C4: in BOTH files the SQL-generation step returns the model response with
leading and trailing whitespace stripped (the result starts and ends with
non-whitespace characters), and every SQL string handed to query execution —
by `process_query` in `gradio_app.py`, and by `answer_user_query` and the
display path of `main` in `app.py` — is such a stripped model response, so it
never carries leading or trailing whitespace. -/
theorem C4_generate_sql_stripped (question : String) :
    (∀ (db : Db) (llm : Llm) (s : String),
      GradioApp.generate_sql db llm question = .ok s →
      (∃ schema resp, db.table_info = .ok schema ∧
        llm.invoke (sqlPromptMessages schema question) = .ok resp ∧
        s = py_strip resp) ∧
      (∀ c, s.data.head? = some c → c.isWhitespace = false) ∧
      (∀ c, s.data.getLast? = some c → c.isWhitespace = false)) ∧
    (∀ (db : Option Db) (llm : Llm) (s : String),
      App.generate_sql db llm question = .ok s →
      (∃ schema resp, App.get_schema db = .ok schema ∧
        llm.invoke (sqlPromptMessages schema question) = .ok resp ∧
        s = py_strip resp) ∧
      (∀ c, s.data.head? = some c → c.isWhitespace = false) ∧
      (∀ c, s.data.getLast? = some c → c.isWhitespace = false)) ∧
    (∀ (db : Db) (llm : Llm) (sql : String),
      Event.dbRunCall sql ∈ GradioApp.process_query_events db llm question →
      (∃ resp, sql = py_strip resp) ∧
      (∀ c, sql.data.head? = some c → c.isWhitespace = false) ∧
      (∀ c, sql.data.getLast? = some c → c.isWhitespace = false)) ∧
    (∀ (db : Option Db) (llm : Llm) (sql : String),
      Event.dbRunCall sql ∈ (App.answer_user_queryT question llm db).2 →
      (∃ resp, sql = py_strip resp) ∧
      (∀ c, sql.data.head? = some c → c.isWhitespace = false) ∧
      (∀ c, sql.data.getLast? = some c → c.isWhitespace = false)) ∧
    (∀ (d : Db) (l : Llm) (sql : String),
      Event.dbRunCall sql ∈ App.main_events (some d) (some l) question →
      (∃ resp, sql = py_strip resp) ∧
      (∀ c, sql.data.head? = some c → c.isWhitespace = false) ∧
      (∀ c, sql.data.getLast? = some c → c.isWhitespace = false)) := by
  refine ⟨?_, ?_, ?_, ?_, ?_⟩
  · intro db llm s hs
    cases hti : db.table_info with
    | error e =>
      exfalso
      simp [GradioApp.generate_sql, GradioApp.generate_sqlT,
        GradioApp.get_schemaT, hti] at hs
    | ok schema =>
      cases hllm : llm.invoke (sqlPromptMessages schema question) with
      | error e =>
        exfalso
        simp [GradioApp.generate_sql, GradioApp.generate_sqlT,
          GradioApp.get_schemaT, hti, hllm] at hs
      | ok resp =>
        have hse : s = py_strip resp := by
          simp [GradioApp.generate_sql, GradioApp.generate_sqlT,
            GradioApp.get_schemaT, hti, hllm] at hs
          exact hs.symm
        have hw := stripped_no_edge_white s ⟨resp, hse⟩
        exact ⟨⟨schema, resp, rfl, hllm, hse⟩, hw.1, hw.2⟩
  · intro db llm s hs
    cases db with
    | none =>
      cases hllm : llm.invoke (sqlPromptMessages "Database not connected" question) with
      | error e =>
        exfalso
        simp [App.generate_sql, App.generate_sqlT, App.get_schemaT, hllm] at hs
      | ok resp =>
        have hse : s = py_strip resp := by
          simp [App.generate_sql, App.generate_sqlT, App.get_schemaT, hllm] at hs
          exact hs.symm
        have hw := stripped_no_edge_white s ⟨resp, hse⟩
        exact ⟨⟨"Database not connected", resp, rfl, hllm, hse⟩, hw.1, hw.2⟩
    | some d =>
      cases hti : d.table_info with
      | error e =>
        exfalso
        simp [App.generate_sql, App.generate_sqlT, App.get_schemaT, hti] at hs
      | ok schema =>
        cases hllm : llm.invoke (sqlPromptMessages schema question) with
        | error e =>
          exfalso
          simp [App.generate_sql, App.generate_sqlT, App.get_schemaT,
            hti, hllm] at hs
        | ok resp =>
          have hse : s = py_strip resp := by
            simp [App.generate_sql, App.generate_sqlT, App.get_schemaT,
              hti, hllm] at hs
            exact hs.symm
          have hw := stripped_no_edge_white s ⟨resp, hse⟩
          exact ⟨⟨schema, resp, by simp [App.get_schema, App.get_schemaT, hti],
            hllm, hse⟩, hw.1, hw.2⟩
  · intro db llm sql hmem
    have h := gradio_dbrun_stripped db llm question sql hmem
    have hw := stripped_no_edge_white sql h
    exact ⟨h, hw.1, hw.2⟩
  · intro db llm sql hmem
    have h := app_answer_dbrun_stripped db llm question sql hmem
    have hw := stripped_no_edge_white sql h
    exact ⟨h, hw.1, hw.2⟩
  · intro d l sql hmem
    have h := app_main_dbrun_stripped d l question sql hmem
    have hw := stripped_no_edge_white sql h
    exact ⟨h, hw.1, hw.2⟩

/-- C4 witness: with a model response carrying leading and trailing
whitespace, the generation step of each file returns the stripped form, with
non-whitespace first and last characters. -/
theorem C4_generate_sql_stripped_witness :
    ((∃ schema resp, dbOk.table_info = .ok schema ∧
        llmWhite.invoke (sqlPromptMessages schema "hi") = .ok resp ∧
        py_strip "  SELECT 1;\n  " = py_strip resp) ∧
      (∀ c, (py_strip "  SELECT 1;\n  ").data.head? = some c →
        c.isWhitespace = false) ∧
      (∀ c, (py_strip "  SELECT 1;\n  ").data.getLast? = some c →
        c.isWhitespace = false)) ∧
    ((∃ schema resp, App.get_schema (some dbOk) = .ok schema ∧
        llmWhite.invoke (sqlPromptMessages schema "hi") = .ok resp ∧
        py_strip "  SELECT 1;\n  " = py_strip resp) ∧
      (∀ c, (py_strip "  SELECT 1;\n  ").data.head? = some c →
        c.isWhitespace = false) ∧
      (∀ c, (py_strip "  SELECT 1;\n  ").data.getLast? = some c →
        c.isWhitespace = false)) :=
  ⟨(C4_generate_sql_stripped "hi").1 dbOk llmWhite (py_strip "  SELECT 1;\n  ") rfl,
   (C4_generate_sql_stripped "hi").2.1 (some dbOk) llmWhite
     (py_strip "  SELECT 1;\n  ") rfl⟩

/-- C6 counterexample: in the main flow of `app.py`, one submitted question makes
the SQL-generation model call TWICE and executes generated SQL TWICE: once
inside `answer_user_query`, and once more when the SQL is re-derived and
re-run for display. -/
theorem C6_counterexample :
    (App.main_events (some dbOk) (some llmConst) "hi").countP is_gen_call = 2 ∧
    (App.main_events (some dbOk) (some llmConst) "hi").countP is_db_run = 2 :=
  ⟨rfl, rfl⟩

/-- The five possible traces of one `process_query` run: nothing (blank
question), schema fetch only, up to the generation call, up to the execution,
or the full pipeline with one answer call. -/
theorem process_query_events_forms (db : Db) (llm : Llm) (q : String) :
    GradioApp.process_query_events db llm q = [] ∨
    GradioApp.process_query_events db llm q = [Event.schemaCall] ∨
    (∃ m, GradioApp.process_query_events db llm q =
      [Event.schemaCall, Event.genLlmCall m]) ∨
    (∃ m s, GradioApp.process_query_events db llm q =
      [Event.schemaCall, Event.genLlmCall m, Event.dbRunCall s]) ∨
    (∃ m s m2, GradioApp.process_query_events db llm q =
      [Event.schemaCall, Event.genLlmCall m, Event.dbRunCall s,
       Event.schemaCall, Event.ansLlmCall m2]) := by
  by_cases hq : py_strip q = ""
  · left
    simp [GradioApp.process_query_events, GradioApp.process_queryT, hq]
  · have hq' : (py_strip q == "") = false := by simpa using hq
    cases hti : db.table_info with
    | error e =>
      right; left
      simp [GradioApp.process_query_events, GradioApp.process_queryT,
        GradioApp.generate_sqlT, GradioApp.get_schemaT, hq', hti]
    | ok schema =>
      cases hllm : llm.invoke (sqlPromptMessages schema q) with
      | error e =>
        right; right; left
        refine ⟨sqlPromptMessages schema q, ?_⟩
        simp [GradioApp.process_query_events, GradioApp.process_queryT,
          GradioApp.generate_sqlT, GradioApp.get_schemaT, hq', hti, hllm]
      | ok resp =>
        cases hrun : db.run (py_strip resp) with
        | error e =>
          by_cases he : e = ""
          · subst he
            cases hans : llm.invoke (GradioApp.answerPromptMessages schema q
                (py_strip resp) (py_str none)) with
            | error e2 =>
              right; right; right; right
              refine ⟨sqlPromptMessages schema q, py_strip resp,
                GradioApp.answerPromptMessages schema q (py_strip resp) (py_str none), ?_⟩
              simp [GradioApp.process_query_events,
                GradioApp.process_queryT, GradioApp.generate_sqlT,
                GradioApp.get_schemaT, GradioApp.run_queryT, py_truthy,
                hq', hti, hllm, hrun, hans]
            | ok ans =>
              right; right; right; right
              refine ⟨sqlPromptMessages schema q, py_strip resp,
                GradioApp.answerPromptMessages schema q (py_strip resp) (py_str none), ?_⟩
              simp [GradioApp.process_query_events,
                GradioApp.process_queryT, GradioApp.generate_sqlT,
                GradioApp.get_schemaT, GradioApp.run_queryT, py_truthy,
                hq', hti, hllm, hrun, hans]
          · have he' : (e == "") = false := by simpa using he
            right; right; right; left
            refine ⟨sqlPromptMessages schema q, py_strip resp, ?_⟩
            simp [GradioApp.process_query_events,
              GradioApp.process_queryT, GradioApp.generate_sqlT,
              GradioApp.get_schemaT, GradioApp.run_queryT, py_truthy,
              hq', hti, hllm, hrun, he']
        | ok result =>
          cases hans : llm.invoke (GradioApp.answerPromptMessages schema q
              (py_strip resp) (py_str (some result))) with
          | error e2 =>
            right; right; right; right
            refine ⟨sqlPromptMessages schema q, py_strip resp,
              GradioApp.answerPromptMessages schema q (py_strip resp) (py_str (some result)), ?_⟩
            simp [GradioApp.process_query_events,
              GradioApp.process_queryT, GradioApp.generate_sqlT,
              GradioApp.get_schemaT, GradioApp.run_queryT, py_truthy,
              hq', hti, hllm, hrun, hans]
          | ok ans =>
            right; right; right; right
            refine ⟨sqlPromptMessages schema q, py_strip resp,
              GradioApp.answerPromptMessages schema q (py_strip resp) (py_str (some result)), ?_⟩
            simp [GradioApp.process_query_events,
              GradioApp.process_queryT, GradioApp.generate_sqlT,
              GradioApp.get_schemaT, GradioApp.run_queryT, py_truthy,
              hq', hti, hllm, hrun, hans]

/-- The possible traces of one `app.py` execute pass with live handles: note
the last form, where the full pipeline is followed by a SECOND generation and
a SECOND execution (the display path of `main`). -/
theorem main_events_forms (d : Db) (l : Llm) (q : String) :
    App.main_events (some d) (some l) q = [] ∨
    App.main_events (some d) (some l) q = [Event.schemaCall] ∨
    (∃ m, App.main_events (some d) (some l) q =
      [Event.schemaCall, Event.genLlmCall m]) ∨
    (∃ m s, App.main_events (some d) (some l) q =
      [Event.schemaCall, Event.genLlmCall m, Event.dbRunCall s]) ∨
    (∃ m s m2, App.main_events (some d) (some l) q =
      [Event.schemaCall, Event.genLlmCall m, Event.dbRunCall s,
       Event.schemaCall, Event.ansLlmCall m2]) ∨
    (∃ m s m2, App.main_events (some d) (some l) q =
      [Event.schemaCall, Event.genLlmCall m, Event.dbRunCall s,
       Event.schemaCall, Event.ansLlmCall m2,
       Event.schemaCall, Event.genLlmCall m, Event.dbRunCall s]) := by
  by_cases hq : py_strip q = ""
  · left
    simp [App.main_events, App.mainT, hq]
  · have hq' : (py_strip q == "") = false := by simpa using hq
    cases hti : d.table_info with
    | error e =>
      right; left
      simp [App.main_events, App.mainT, App.answer_user_queryT,
        App.generate_sqlT, App.get_schemaT, hq', hti]
    | ok schema =>
      cases hllm : l.invoke (sqlPromptMessages schema q) with
      | error e =>
        right; right; left
        refine ⟨sqlPromptMessages schema q, ?_⟩
        simp [App.main_events, App.mainT, App.answer_user_queryT,
          App.generate_sqlT, App.get_schemaT, hq', hti, hllm]
      | ok resp =>
        cases hrun : d.run (py_strip resp) with
        | error e =>
          by_cases he : e = ""
          · subst he
            cases hans : l.invoke (App.answerPromptMessages schema q
                (py_strip resp) (py_str none)) with
            | error e2 =>
              right; right; right; right; left
              refine ⟨sqlPromptMessages schema q, py_strip resp,
                App.answerPromptMessages schema q (py_strip resp) (py_str none), ?_⟩
              simp [App.main_events, App.mainT, App.answer_user_queryT,
                App.generate_sqlT, App.get_schemaT, App.run_queryT, py_truthy,
                hq', hti, hllm, hrun, hans]
            | ok ans =>
              right; right; right; right; right
              refine ⟨sqlPromptMessages schema q, py_strip resp,
                App.answerPromptMessages schema q (py_strip resp) (py_str none), ?_⟩
              simp [App.main_events, App.mainT, App.answer_user_queryT,
                App.generate_sqlT, App.get_schemaT, App.run_queryT, py_truthy,
                hq', hti, hllm, hrun, hans]
          · have he' : (e == "") = false := by simpa using he
            right; right; right; left
            refine ⟨sqlPromptMessages schema q, py_strip resp, ?_⟩
            simp [App.main_events, App.mainT, App.answer_user_queryT,
              App.generate_sqlT, App.get_schemaT, App.run_queryT, py_truthy,
              hq', hti, hllm, hrun, he']
        | ok result =>
          cases hans : l.invoke (App.answerPromptMessages schema q
              (py_strip resp) (py_str (some result))) with
          | error e2 =>
            right; right; right; right; left
            refine ⟨sqlPromptMessages schema q, py_strip resp,
              App.answerPromptMessages schema q (py_strip resp) (py_str (some result)), ?_⟩
            simp [App.main_events, App.mainT, App.answer_user_queryT,
              App.generate_sqlT, App.get_schemaT, App.run_queryT, py_truthy,
              hq', hti, hllm, hrun, hans]
          | ok ans =>
            right; right; right; right; right
            refine ⟨sqlPromptMessages schema q, py_strip resp,
              App.answerPromptMessages schema q (py_strip resp) (py_str (some result)), ?_⟩
            simp [App.main_events, App.mainT, App.answer_user_queryT,
              App.generate_sqlT, App.get_schemaT, App.run_queryT, py_truthy,
              hq', hti, hllm, hrun, hans]

/-- C6 (amended): in `process_query` of `gradio_app.py` each step runs at most
once per request — at most one SQL-generation model call, at most one
execution, at most one answer call, with no retry; in the main flow of `app.py`,
however, SQL generation and execution each occur up to TWICE per request
(the display path re-generates and re-executes), while the answer call still
occurs at most once. -/
theorem C6_amended_step_counts :
    (∀ (db : Db) (llm : Llm) (q : String),
      (GradioApp.process_query_events db llm q).countP is_gen_call ≤ 1 ∧
      (GradioApp.process_query_events db llm q).countP is_db_run ≤ 1 ∧
      (GradioApp.process_query_events db llm q).countP is_ans_call ≤ 1) ∧
    (∀ (d : Db) (l : Llm) (q : String),
      (App.main_events (some d) (some l) q).countP is_gen_call ≤ 2 ∧
      (App.main_events (some d) (some l) q).countP is_db_run ≤ 2 ∧
      (App.main_events (some d) (some l) q).countP is_ans_call ≤ 1) := by
  constructor
  · intro db llm q
    rcases process_query_events_forms db llm q with
      h | h | ⟨m, h⟩ | ⟨m, s, h⟩ | ⟨m, s, m2, h⟩ <;>
      rw [h] <;>
      refine ⟨?_, ?_, ?_⟩ <;>
      simp [List.countP_cons, is_gen_call, is_db_run, is_ans_call]
  · intro d l q
    rcases main_events_forms d l q with
      h | h | ⟨m, h⟩ | ⟨m, s, h⟩ | ⟨m, s, m2, h⟩ | ⟨m, s, m2, h⟩ <;>
      rw [h] <;>
      refine ⟨?_, ?_, ?_⟩ <;>
      simp [List.countP_cons, is_gen_call, is_db_run, is_ans_call]

/-- C8: `process_query` is total at its boundary: for every input (and every
behaviour of the collaborators, including raised exceptions) it returns one of
four triples of strings, and every exception raised inside the pipeline is
rendered into the first component ("Error: " for caught exceptions from the
schema fetch or a model call, "SQL Error: " for execution failures) — none
propagates. -/
theorem C8_process_query_total (db : Db) (llm : Llm) (question : String) :
    (py_strip question = "" ∧
      GradioApp.process_query db llm question = ("Please enter a question.", "", "")) ∨
    (∃ e, GradioApp.process_query db llm question = ("Error: " ++ e, "", "") ∧
      (db.table_info = .error e ∨ ∃ msgs, llm.invoke msgs = .error e)) ∨
    (∃ e sql, e ≠ "" ∧
      GradioApp.process_query db llm question = ("SQL Error: " ++ e, sql, "") ∧
      db.run sql = .error e) ∨
    (∃ ans sql raw,
      GradioApp.process_query db llm question = (ans, sql, py_str raw) ∧
      ∃ msgs, llm.invoke msgs = .ok ans) :=
  process_query_cases db llm question

/-- C9: on a non-error run of `process_query` (generation, execution and
answer call all succeed), the sql component displayed to the caller is
character-for-character the string that was executed: every `dbRunCall` in
the trace carries exactly the displayed sql. -/
theorem C9_displayed_sql_is_executed (db : Db) (llm : Llm)
    (question schema resp result ans : String)
    (hq : py_strip question ≠ "")
    (hti : db.table_info = .ok schema)
    (hllm : llm.invoke (sqlPromptMessages schema question) = .ok resp)
    (hrun : db.run (py_strip resp) = .ok result)
    (hans : llm.invoke (GradioApp.answerPromptMessages schema question
      (py_strip resp) result) = .ok ans) :
    GradioApp.process_query db llm question = (ans, py_strip resp, result) ∧
    (∀ sql, Event.dbRunCall sql ∈ GradioApp.process_query_events db llm question →
      sql = (GradioApp.process_query db llm question).2.1) := by
  have hq' : (py_strip question == "") = false := by simpa using hq
  have hout : GradioApp.process_queryT db llm question =
      ((ans, py_strip resp, result),
       [Event.schemaCall, Event.genLlmCall (sqlPromptMessages schema question),
        Event.dbRunCall (py_strip resp), Event.schemaCall,
        Event.ansLlmCall (GradioApp.answerPromptMessages schema question
          (py_strip resp) result)]) := by
    simp [GradioApp.process_queryT, GradioApp.generate_sqlT, GradioApp.get_schemaT,
      GradioApp.run_queryT, py_truthy, py_str, hq', hti, hllm, hrun, hans]
  constructor
  · simp [GradioApp.process_query, hout]
  · intro sql hmem
    simp [GradioApp.process_query_events, hout] at hmem
    simp [GradioApp.process_query, hout, hmem]

/-- C9 witness: the displayed-equals-executed property instantiated at stub
collaborators and the concrete question "hi". -/
theorem C9_displayed_sql_witness :
    GradioApp.process_query dbOk llmConst "hi" =
      ("SELECT 1;", py_strip "SELECT 1;", "R") ∧
    (∀ sql, Event.dbRunCall sql ∈ GradioApp.process_query_events dbOk llmConst "hi" →
      sql = (GradioApp.process_query dbOk llmConst "hi").2.1) :=
  C9_displayed_sql_is_executed dbOk llmConst "hi" "S" "SELECT 1;" "R" "SELECT 1;"
    (by decide) rfl rfl rfl rfl
